import Mathlib

/-!
# Copy-on-write fork of JOS (x86-64), lib/fork.c

A shallow embedding of `pgfault`, `duppage` and `fork` from `lib/fork.c`.
The functions are written over an interface `Sys K` of the system calls and
library routines they use (whose code is not in `lib/fork.c`), so that the
same definitions run over a call-recording kernel and over a kernel state
modelled from the specification.
-/

namespace Jos

/-! ## Constants of the missing headers -/

/-- Modelled from the spec: `inc/mmu.h` is missing; a page is 4096 bytes. -/
def PGSIZE : Nat := 4096
/-- Modelled from the spec: `inc/mmu.h` is missing; entries per page table (x86-64). -/
def NPTENTRIES : Nat := 512
/-- Modelled from the spec: `inc/mmu.h` is missing; entries per page directory (x86-64). -/
def NPDENTRIES : Nat := 512
/-- Modelled from the spec: `inc/mmu.h` is missing; entries per page-directory-pointer table (x86-64). -/
def NPDPENTRIES : Nat := 512
/-- Modelled from the spec: `inc/mmu.h` is missing; the present bit. -/
def PTE_P : Nat := 0x001
/-- Modelled from the spec: `inc/mmu.h` is missing; the writable bit. -/
def PTE_W : Nat := 0x002
/-- Modelled from the spec: `inc/mmu.h` is missing; the user-accessible bit. -/
def PTE_U : Nat := 0x004
/-- The copy-on-write mark, `#define PTE_COW 0x800` in `lib/fork.c`. -/
def PTE_COW : Nat := 0x800
/-- Modelled from the spec: `inc/mmu.h` is missing; the bits reserved for software. -/
def PTE_AVAIL : Nat := 0xE00
/-- Modelled from the spec: `inc/mmu.h` is missing; `PTE_AVAIL | PTE_P | PTE_W | PTE_U`. -/
def PTE_USER : Nat := 0xE07
/-- Modelled from the spec: `inc/mmu.h` is missing; `PTE_AVAIL | PTE_P | PTE_W | PTE_U`. -/
def PTE_SYSCALL : Nat := 0xE07
/-- Modelled from the spec: `inc/mmu.h` is missing; the write bit of a page-fault error code. -/
def FEC_WR : Nat := 0x2
/-- Modelled from the spec: `inc/env.h` is missing; the status value of a runnable environment. -/
def ENV_RUNNABLE : Nat := 2
/-- Modelled from the spec: `inc/memlayout.h` is missing; where user programs begin (`4*PTSIZE`). -/
def UTEXT : Nat := 0x800000
/-- Modelled from the spec: `inc/memlayout.h` is missing; top of user-accessible memory. -/
def UTOP : Nat := 0x8000800000
/-- Modelled from the spec: `inc/memlayout.h` is missing; top of the one-page user exception stack. -/
def UXSTACKTOP : Nat := UTOP
/-- Modelled from the spec: `inc/memlayout.h` is missing; the scratch page of the fault handler. -/
def PFTEMP : Nat := 0x5ff000

/-- Modelled from the spec: `inc/mmu.h` is missing; index of `la` in the top-level table. -/
def VPML4E (la : Nat) : Nat := (la >>> 39) &&& 0x1FF
/-- Modelled from the spec: `inc/mmu.h` is missing; index of `la` in the self-mapped view of level 3. -/
def VPDPE (la : Nat) : Nat := la >>> 30
/-- Modelled from the spec: `inc/mmu.h` is missing; index of `la` in the self-mapped view of level 2. -/
def VPD (la : Nat) : Nat := la >>> 21
/-- Modelled from the spec: `inc/mmu.h` is missing; page number of `la`. -/
def PGNUM (la : Nat) : Nat := la >>> 12
/-- Modelled from the spec: `inc/mmu.h` is missing; page number of `la`. -/
def VPN (la : Nat) : Nat := la >>> 12
/-- Modelled from the spec: `inc/types.h` is missing; round `a` down to a multiple of `n`. -/
def ROUNDDOWN (a n : Nat) : Nat := a - a % n

/-- The 32-bit complement `~x` of an `int`. -/
def not32 (x : Nat) : Nat := x ^^^ 0xFFFFFFFF

/-! ## Results and the system interface -/

/-- Outcome of a user-level routine: it returns a value, or it panics (the
environment is destroyed; nothing after the `panic` runs). -/
inductive Res (K : Type) (α : Type) where
  | ret (val : α) (k : K) : Res K α
  | panic (msg : String) (k : K) : Res K α

/-- The state in which a routine stopped. -/
def Res.state {K α : Type} : Res K α → K
  | .ret _ k => k
  | .panic _ k => k

/-- The routine stopped in a panic. -/
def Res.isPanic {K α : Type} : Res K α → Bool
  | .ret _ _ => false
  | .panic _ _ => true

/-- The system calls, library routines and self-mapped page-table views that
`lib/fork.c` uses; their code is not in `lib/fork.c`. Each call takes the
machine state and gives the result code and the next state. -/
structure Sys (K : Type) where
  /-- The read-only view `uvpml4e[i]`. -/
  uvpml4e : K → Nat → Nat
  /-- The read-only view `uvpde[i]`. -/
  uvpde : K → Nat → Nat
  /-- The read-only view `uvpd[i]`. -/
  uvpd : K → Nat → Nat
  /-- The read-only view `uvpt[i]`. -/
  uvpt : K → Nat → Nat
  sys_getenvid : K → Int
  sys_exofork : K → Int × K
  sys_page_alloc : K → Int → Nat → Nat → Int × K
  sys_page_map : K → Int → Nat → Int → Nat → Nat → Int × K
  sys_page_unmap : K → Int → Nat → Int × K
  sys_env_set_pgfault_upcall : K → Int → Int × K
  sys_env_set_status : K → Int → Nat → Int × K
  /-- The library call `set_pgfault_handler(pgfault)`. -/
  set_pgfault_handler : K → K
  /-- The library call `memmove(dst, src, n)` (also used for `memcpy`). -/
  memmove : K → Nat → Nat → Nat → K
  /-- The assignment `thisenv = &envs[ENVX(id)]`. -/
  set_thisenv : K → Int → K

variable {K : Type}

/-! ## lib/fork.c -/

/-- The page-fault handler `pgfault(utf)`, lines 14-56; `va` is
`utf->utf_fault_va` and `err` is `utf->utf_err`. -/
def pgfault (S : Sys K) (va err : Nat) (k : K) : Res K Unit :=
  let addr := va
  let entry := S.uvpt k (VPN addr)
  let perms := entry &&& PTE_SYSCALL
  if (err &&& FEC_WR) = 0 ∨ (perms &&& PTE_COW) = 0 then
    .panic "Inappropriate permissions!" k
  else
    let a := S.sys_page_alloc k 0 PFTEMP (PTE_P ||| PTE_W ||| PTE_U)
    if a.1 < 0 then .panic "Page alloc failed!" a.2
    else
      let rounded := ROUNDDOWN addr PGSIZE
      let k2 := S.memmove a.2 PFTEMP rounded PGSIZE
      let m := S.sys_page_map k2 0 PFTEMP 0 rounded (PTE_P ||| PTE_W ||| PTE_U)
      if m.1 < 0 then .panic "Mapping page to PFTEMP failed in pgfault!" m.2
      else
        let u := S.sys_page_unmap m.2 0 PFTEMP
        if u.1 < 0 then .panic "PFTEMP unmap failed!" u.2
        else .ret () u.2

/-- The address `pn * PGSIZE` as `duppage` computes it, line 75: `pn` is
`unsigned` and `PGSIZE` is an `int` constant, so the product is taken in
32 bits and only then widened to `uint64_t`. -/
def dupAddress (pn : Nat) : Nat := (pn * PGSIZE) % 2 ^ 32

/-- The permissions `duppage` passes on its copy-on-write branch, lines 80-81. -/
def cowPerms (perms : Nat) : Nat := (perms &&& not32 PTE_W) ||| PTE_COW

/-- The single-page transfer `duppage(envid, pn)`, lines 69-91. -/
def duppage (S : Sys K) (envid : Int) (pn : Nat) (k : K) : Res K Int :=
  let address := dupAddress pn
  let entry := S.uvpt k pn
  let perms := entry &&& PTE_USER
  if (perms &&& PTE_W) ≠ 0 ∨ (perms &&& PTE_COW) ≠ 0 then
    let perms := cowPerms perms
    let c := S.sys_page_map k 0 address envid address perms
    if c.1 < 0 then .panic "Mapping failed!" c.2
    else
      let r := S.sys_page_map c.2 0 address 0 address perms
      if r.1 < 0 then .panic "Restoring COW failed!" r.2
      else .ret 0 r.2
  else
    let c := S.sys_page_map k 0 address envid address perms
    if c.1 < 0 then .ret (-1) c.2
    else .ret 0 c.2

/-- One pass through the body of the loop of `fork`, lines 127-148, at
address `addr`, followed by the increment `addr += PGSIZE` of the `for`
(which a `continue` runs as well): the next address and the state, or the
panic of `duppage`. The value `duppage` returns is dropped, as on line 147. -/
def walkBody (S : Sys K) (child_id : Int) (addr : Nat) (k : K) : Res K Nat :=
  if (S.uvpml4e k (VPML4E addr) &&& PTE_P) = 0 then
    .ret ((addr + NPDPENTRIES * NPDENTRIES * PGSIZE + PGSIZE) % 2 ^ 64) k
  else if (S.uvpde k (VPDPE addr) &&& PTE_P) = 0 then
    .ret ((addr + NPDENTRIES * NPTENTRIES * PGSIZE + PGSIZE) % 2 ^ 64) k
  else if (S.uvpd k (VPD addr) &&& PTE_P) = 0 then
    .ret ((addr + NPTENTRIES * PGSIZE + PGSIZE) % 2 ^ 64) k
  else if (S.uvpt k (PGNUM addr) &&& PTE_P) ≠ 0 ∧ addr ≠ UXSTACKTOP - PGSIZE then
    match duppage S child_id (PGNUM addr % 2 ^ 32) k with
    | .ret _ k1 => .ret ((addr + PGSIZE) % 2 ^ 64) k1
    | .panic msg k1 => .panic msg k1
  else
    .ret ((addr + PGSIZE) % 2 ^ 64) k

/-- The loop of `fork`, lines 127-148, from address `addr`; `none` when the
fuel runs out before `addr` reaches `UTOP`. -/
def walk (S : Sys K) (child_id : Int) : Nat → Nat → K → Option (Res K Unit)
  | fuel, addr, k =>
    if addr < UTOP then
      match fuel with
      | 0 => none
      | fuel + 1 =>
        match walkBody S child_id addr k with
        | .ret next k1 => walk S child_id fuel next k1
        | .panic msg k1 => some (.panic msg k1)
    else some (.ret () k)

/-- The part of `fork` after the loop, lines 150-177. -/
def forkFinish (S : Sys K) (child_id : Int) (k : K) : Res K Int :=
  let a := S.sys_page_alloc k (S.sys_getenvid k) PFTEMP (PTE_P ||| PTE_U ||| PTE_W)
  if a.1 < 0 then .panic "Couldn't alloc PFTEMP!" a.2
  else
    let k1 := S.memmove a.2 PFTEMP (UXSTACKTOP - PGSIZE) PGSIZE
    let m := S.sys_page_map k1 (S.sys_getenvid k1) PFTEMP child_id (UXSTACKTOP - PGSIZE)
      (PTE_P ||| PTE_U ||| PTE_W)
    if m.1 < 0 then .panic "Couldn't map values to child stack!" m.2
    else
      let u := S.sys_page_unmap m.2 (S.sys_getenvid m.2) PFTEMP
      if u.1 < 0 then .panic "Failed to unmap PFTEMP!" u.2
      else
        let x := S.sys_page_alloc u.2 child_id (UXSTACKTOP - PGSIZE) (PTE_P ||| PTE_U ||| PTE_W)
        if x.1 < 0 then .panic "Couldn't allocate exception stack!" x.2
        else
          let p := S.sys_env_set_pgfault_upcall x.2 child_id
          if p.1 < 0 then .panic "Failed to set upcall in child!" p.2
          else
            let s := S.sys_env_set_status p.2 child_id ENV_RUNNABLE
            if s.1 < 0 then .panic "Cannot set child as runnable!" s.2
            else .ret child_id s.2

/-- The routine `fork()`, lines 109-178, with `fuel` passes allowed to its loop. -/
def forkFuel (S : Sys K) (fuel : Nat) (k : K) : Option (Res K Int) :=
  let k0 := S.set_pgfault_handler k
  let e := S.sys_exofork k0
  let child_id := e.1
  if child_id < 0 then some (.panic "Exofork failed in fork!" e.2)
  else if child_id = 0 then
    some (.ret 0 (S.set_thisenv e.2 (S.sys_getenvid e.2)))
  else
    match walk S child_id fuel UTEXT e.2 with
    | none => none
    | some (.panic msg k1) => some (.panic msg k1)
    | some (.ret _ k1) => some (forkFinish S child_id k1)

/-- Passes that always suffice for the loop of `fork`: every pass moves
`addr` forward by at least one page. -/
def walkFuel : Nat := (UTOP - UTEXT) / PGSIZE + 1

/-- The routine `fork()`, lines 109-178. -/
def fork (S : Sys K) (k : K) : Option (Res K Int) := forkFuel S walkFuel k

/-! ## Recording the calls -/

/-- A call made through the interface, with the result code it got. -/
inductive Call where
  | exofork (ret : Int)
  | page_alloc (envid : Int) (va perm : Nat) (ret : Int)
  | page_map (srcenv : Int) (srcva : Nat) (dstenv : Int) (dstva perm : Nat) (ret : Int)
  | page_unmap (envid : Int) (va : Nat) (ret : Int)
  | set_pgfault_upcall (envid : Int) (ret : Int)
  | set_status (envid : Int) (status : Nat) (ret : Int)
  | memmove (dst src n : Nat)
  deriving DecidableEq, Repr

/-- The interface `S` with every state-changing call appended to a log. -/
def logged (S : Sys K) : Sys (K × List Call) where
  uvpml4e s i := S.uvpml4e s.1 i
  uvpde s i := S.uvpde s.1 i
  uvpd s i := S.uvpd s.1 i
  uvpt s i := S.uvpt s.1 i
  sys_getenvid s := S.sys_getenvid s.1
  sys_exofork s :=
    let r := S.sys_exofork s.1
    (r.1, (r.2, s.2 ++ [.exofork r.1]))
  sys_page_alloc s envid va perm :=
    let r := S.sys_page_alloc s.1 envid va perm
    (r.1, (r.2, s.2 ++ [.page_alloc envid va perm r.1]))
  sys_page_map s srcenv srcva dstenv dstva perm :=
    let r := S.sys_page_map s.1 srcenv srcva dstenv dstva perm
    (r.1, (r.2, s.2 ++ [.page_map srcenv srcva dstenv dstva perm r.1]))
  sys_page_unmap s envid va :=
    let r := S.sys_page_unmap s.1 envid va
    (r.1, (r.2, s.2 ++ [.page_unmap envid va r.1]))
  sys_env_set_pgfault_upcall s envid :=
    let r := S.sys_env_set_pgfault_upcall s.1 envid
    (r.1, (r.2, s.2 ++ [.set_pgfault_upcall envid r.1]))
  sys_env_set_status s envid status :=
    let r := S.sys_env_set_status s.1 envid status
    (r.1, (r.2, s.2 ++ [.set_status envid status r.1]))
  set_pgfault_handler s := (S.set_pgfault_handler s.1, s.2)
  memmove s dst src n := (S.memmove s.1 dst src n, s.2 ++ [.memmove dst src n])
  set_thisenv s id := (S.set_thisenv s.1 id, s.2)

/-! ## The kernel, modelled from the specification -/

/-- A leaf mapping: the frame and the permission bits. -/
structure Mapping where
  frame : Nat
  perm : Nat
  deriving DecidableEq, Repr

/-- Modelled from the spec: the kernel (`kern/`) is missing; the state behind
the system-call contract of section 6: environments, their 4-level page
tables, the frames and the free frames. -/
structure Kern where
  /-- Identifier of the running environment. -/
  cur : Int
  /-- The environments that exist. -/
  alive : Int → Bool
  /-- The parent of each environment. -/
  parent : Int → Int
  /-- Identifiers still free for new environments. -/
  freeEnvs : List Int
  /-- Scheduling status of each environment. -/
  status : Int → Nat
  /-- Whether a fault upcall is registered for the environment. -/
  upcall : Int → Bool
  /-- Whether the environment has installed its user-level fault handler. -/
  handler : Int → Bool
  /-- The variable `thisenv` of each environment, as an environment id. -/
  thisenv : Int → Int
  /-- Top-level entries of each environment. -/
  pml4e : Int → Nat → Nat
  /-- Entries of level 3, by global index. -/
  pdpe : Int → Nat → Nat
  /-- Entries of level 2, by global index. -/
  pde : Int → Nat → Nat
  /-- Leaf mappings, by page number. -/
  pte : Int → Nat → Option Mapping
  /-- Content of each frame, byte by offset. -/
  mem : Nat → Nat → Nat
  /-- The free frames. -/
  free : List Nat

namespace Kern

/-- Modelled from the spec: `inc/error.h` is missing; the negative result codes. -/
def E_BAD_ENV : Int := 2
/-- Modelled from the spec: `inc/error.h` is missing. -/
def E_INVAL : Int := 3
/-- Modelled from the spec: `inc/error.h` is missing. -/
def E_NO_MEM : Int := 4
/-- Modelled from the spec: `inc/error.h` is missing. -/
def E_NO_FREE_ENV : Int := 5
/-- Modelled from the spec: `inc/env.h` is missing; status of a new environment. -/
def ENV_NOT_RUNNABLE : Nat := 4

/-- Modelled from the spec: the kernel is missing; the environment an id
names for the running environment: 0 is the caller, and an "invalid process"
is one that does not exist or is neither the caller nor a child of it. -/
def envid2env (k : Kern) (envid : Int) : Option Int :=
  let e := if envid = 0 then k.cur else envid
  if k.alive e ∧ (e = k.cur ∨ k.parent e = k.cur) then some e else none

/-- Modelled from the spec: the kernel is missing; a valid user page address. -/
def validVa (va : Nat) : Prop := va < UTOP ∧ va % PGSIZE = 0

instance (va : Nat) : Decidable (validVa va) := by unfold validVa; infer_instance

/-- Modelled from the spec: the kernel is missing; a valid "permission
combination": present and user set, nothing outside `PTE_SYSCALL`. -/
def validPerm (perm : Nat) : Prop :=
  perm &&& (PTE_U ||| PTE_P) = (PTE_U ||| PTE_P) ∧ perm &&& PTE_SYSCALL = perm

instance (perm : Nat) : Decidable (validPerm perm) := by unfold validPerm; infer_instance

/-- Modelled from the spec: the kernel is missing; the table entry the
self-mapped view shows for a leaf mapping. -/
def pteEntry : Option Mapping → Nat
  | none => 0
  | some m => m.frame * PGSIZE + m.perm % PGSIZE

/-- Modelled from the spec: the kernel is missing; install mapping `m` for
page `va` of environment `e`, creating the upper levels. -/
def insert (k : Kern) (e : Int) (va : Nat) (m : Mapping) : Kern :=
  { k with
    pml4e := fun e1 i => if e1 = e ∧ i = VPML4E va
      then k.pml4e e1 i ||| (PTE_P ||| PTE_W ||| PTE_U) else k.pml4e e1 i
    pdpe := fun e1 i => if e1 = e ∧ i = VPDPE va
      then k.pdpe e1 i ||| (PTE_P ||| PTE_W ||| PTE_U) else k.pdpe e1 i
    pde := fun e1 i => if e1 = e ∧ i = VPD va
      then k.pde e1 i ||| (PTE_P ||| PTE_W ||| PTE_U) else k.pde e1 i
    pte := fun e1 pn => if e1 = e ∧ pn = PGNUM va then some m else k.pte e1 pn }

/-- Modelled from the spec: allocate-page, "a fresh zero/undefined-content
frame is mapped at that address with given permissions"; negative when the
process, address or permissions are invalid or no frame is free. The frame
is zero-filled. -/
def sys_page_alloc (k : Kern) (envid : Int) (va perm : Nat) : Int × Kern :=
  match envid2env k envid with
  | none => (-E_BAD_ENV, k)
  | some e =>
    if ¬ validVa va ∨ ¬ validPerm perm then (-E_INVAL, k)
    else
      match k.free with
      | [] => (-E_NO_MEM, k)
      | f :: rest =>
        let k1 := { k with free := rest, mem := fun g off => if g = f then 0 else k.mem g off }
        (0, insert k1 e va ⟨f, perm⟩)

/-- Modelled from the spec: map-page, "target gets a mapping to the same
frame as source's mapping at source address, with given permissions";
negative on an invalid process, address or permission combination
(including write permission asked on a source that is not writable). -/
def sys_page_map (k : Kern) (srcenv : Int) (srcva : Nat) (dstenv : Int) (dstva perm : Nat) :
    Int × Kern :=
  match envid2env k srcenv, envid2env k dstenv with
  | some s, some d =>
    if ¬ validVa srcva ∨ ¬ validVa dstva then (-E_INVAL, k)
    else
      match k.pte s (PGNUM srcva) with
      | none => (-E_INVAL, k)
      | some m =>
        if ¬ validPerm perm then (-E_INVAL, k)
        else if (perm &&& PTE_W) ≠ 0 ∧ (m.perm &&& PTE_W) = 0 then (-E_INVAL, k)
        else (0, insert k d dstva ⟨m.frame, perm⟩)
  | _, _ => (-E_BAD_ENV, k)

/-- Modelled from the spec: unmap-page, "mapping removed"; negative on an
invalid process or address, or when there is "no such mapping". -/
def sys_page_unmap (k : Kern) (envid : Int) (va : Nat) : Int × Kern :=
  match envid2env k envid with
  | none => (-E_BAD_ENV, k)
  | some e =>
    if ¬ validVa va then (-E_INVAL, k)
    else
      match k.pte e (PGNUM va) with
      | none => (-E_INVAL, k)
      | some _ =>
        (0, { k with pte := fun e1 pn => if e1 = e ∧ pn = PGNUM va then none else k.pte e1 pn })

/-- Modelled from the spec: set-fault-upcall, "future faults in that process
dispatch to entry address"; negative on an invalid process. -/
def sys_env_set_pgfault_upcall (k : Kern) (envid : Int) : Int × Kern :=
  match envid2env k envid with
  | none => (-E_BAD_ENV, k)
  | some e => (0, { k with upcall := fun e1 => if e1 = e then true else k.upcall e1 })

/-- Modelled from the spec: set-runnable, "process becomes eligible for
scheduling"; negative on an invalid process or status. -/
def sys_env_set_status (k : Kern) (envid : Int) (status : Nat) : Int × Kern :=
  match envid2env k envid with
  | none => (-E_BAD_ENV, k)
  | some e =>
    if status ≠ ENV_RUNNABLE ∧ status ≠ ENV_NOT_RUNNABLE then (-E_INVAL, k)
    else (0, { k with status := fun e1 => if e1 = e then status else k.status e1 })

/-- Modelled from the spec: create-child-context, as seen by the caller: "a
positive child id in the caller's (parent's) execution", negative on
resource exhaustion. The child is not runnable; its address space is the one
the state records for its id. -/
def sys_exofork (k : Kern) : Int × Kern :=
  match k.freeEnvs with
  | [] => (-E_NO_FREE_ENV, k)
  | c :: rest =>
    (c, { k with
      freeEnvs := rest
      alive := fun e => if e = c then true else k.alive e
      parent := fun e => if e = c then k.cur else k.parent e
      status := fun e => if e = c then ENV_NOT_RUNNABLE else k.status e
      upcall := fun e => if e = c then false else k.upcall e })

/-- Modelled from the spec: `lib/string.c` and the MMU are missing; a copy
of `n` bytes between two mapped pages of the running environment (the copy
stays inside one page on each side); nothing is copied when a side is not
mapped. -/
def memmove (k : Kern) (dst src n : Nat) : Kern :=
  match k.pte k.cur (PGNUM dst), k.pte k.cur (PGNUM src) with
  | some d, some s =>
    { k with mem := fun f off =>
        if f = d.frame ∧ dst % PGSIZE ≤ off ∧ off < dst % PGSIZE + n
        then k.mem s.frame (off - dst % PGSIZE + src % PGSIZE) else k.mem f off }
  | _, _ => k

/-- Modelled from the spec: the kernel and `lib/pgfault.c` are missing; the
interface of `lib/fork.c` over the modelled kernel state. -/
def sys : Sys Kern where
  uvpml4e k i := k.pml4e k.cur i
  uvpde k i := k.pdpe k.cur i
  uvpd k i := k.pde k.cur i
  uvpt k i := pteEntry (k.pte k.cur i)
  sys_getenvid k := k.cur
  sys_exofork := sys_exofork
  sys_page_alloc := sys_page_alloc
  sys_page_map := sys_page_map
  sys_page_unmap := sys_page_unmap
  sys_env_set_pgfault_upcall := sys_env_set_pgfault_upcall
  sys_env_set_status := sys_env_set_status
  set_pgfault_handler k := { k with handler := fun e => if e = k.cur then true else k.handler e }
  memmove := memmove
  set_thisenv k id := { k with thisenv := fun e => if e = k.cur then id else k.thisenv e }

end Kern

/-! ## Recording the states -/

namespace Kern

/-- No free frame is referenced by a mapping. -/
def freeUnmapped (k : Kern) : Prop :=
  ∀ (e : Int) (pn : Nat) (m : Mapping), k.pte e pn = some m → m.frame ∉ k.free

/-! ## Example states -/

/-- The entry of an upper level at index `i` for a list of mapped pages:
present, writable and user when a page of the list lies below it. -/
def upperOf (idx : Nat → Nat) (pages : List (Nat × Mapping)) (i : Nat) : Nat :=
  if pages.any (fun p => idx (p.1 * PGSIZE) == i) then PTE_P ||| PTE_W ||| PTE_U else 0

/-- A state with a running environment 0x1000 that maps `pages` (page number,
mapping), an environment 0x1001 that is its child when `child` holds and
maps `childPages`, the free frames `free`, and the byte `byte0` at offset 0
of frame `frame0` (every other byte is 0). -/
def sample (pages : List (Nat × Mapping)) (child : Bool) (childPages : List (Nat × Mapping))
    (free : List Nat) (frame0 byte0 : Nat) : Kern where
  cur := 0x1000
  alive e := e = 0x1000 ∨ (child ∧ e = 0x1001)
  parent e := if e = 0x1001 then 0x1000 else 0
  freeEnvs := if child then [0x1002] else [0x1001, 0x1002]
  status e := if e = 0x1000 then 3 else if child ∧ e = 0x1001 then ENV_NOT_RUNNABLE else 0
  upcall e := e = 0x1000
  handler _ := false
  thisenv _ := 0x1000
  pml4e e i := if e = 0x1000 then upperOf VPML4E pages i
    else if e = 0x1001 then upperOf VPML4E childPages i else 0
  pdpe e i := if e = 0x1000 then upperOf VPDPE pages i
    else if e = 0x1001 then upperOf VPDPE childPages i else 0
  pde e i := if e = 0x1000 then upperOf VPD pages i
    else if e = 0x1001 then upperOf VPD childPages i else 0
  pte e pn := if e = 0x1000 then pages.lookup pn
    else if e = 0x1001 then childPages.lookup pn else none
  mem f off := if f = frame0 ∧ off = 0 then byte0 else 0
  free := free

end Kern

namespace Kern

/-- A parent with a read-only page at 0x800000, a writable page at 0x801000,
a writable page at 0xc00000 and its exception stack, whose first byte is 0xAB.
No page lies between 0xa00000 and 0xbfffff, so that entry of level 2 is absent. -/
def parentA : Kern :=
  sample [(0x800, ⟨10, 5⟩), (0x801, ⟨11, 7⟩), (0xc00, ⟨12, 7⟩), (0x80007ff, ⟨13, 7⟩)]
    false [] [20, 21, 22, 23] 13 0xAB

/-- A parent with a read-only page at 0x800000, a writable page at 0x801000,
a read-only page at 0x1001fe000 and its exception stack. -/
def parentB : Kern :=
  sample [(0x800, ⟨10, 5⟩), (0x801, ⟨11, 7⟩), (0x1001fe, ⟨12, 5⟩), (0x80007ff, ⟨13, 7⟩)]
    false [] [20, 21, 22, 23] 13 0xAB

/-- An environment with a copy-on-write page at 0x801000 shared with its
child, and no free frame. -/
def stateD : Kern := sample [(0x801, ⟨11, 0x805⟩)] true [(0x801, ⟨11, 0x805⟩)] [] 11 0xAB

/-- An environment whose page at `PFTEMP` is marked copy-on-write. -/
def stateE : Kern := sample [(0x5ff, ⟨11, 0x805⟩)] true [(0x5ff, ⟨11, 0x805⟩)] [20, 21] 11 0xAB

/-- An environment with a copy-on-write page at 0x801000 shared with its
child, and free frames. -/
def stateF : Kern := sample [(0x801, ⟨11, 0x805⟩)] true [(0x801, ⟨11, 0x805⟩)] [20, 21] 11 0xAB

end Kern

/-- The value and state of a routine that returned. -/
def Res.returned {K α : Type} : Res K α → Option (α × K)
  | .ret v k => some (v, k)
  | .panic _ _ => none

namespace Kern

end Kern

/-! # Theorems -/

/-! ## Facts on permission bits -/

theorem dupAddress_eq_iff (pn : Nat) : dupAddress pn = pn * PGSIZE ↔ pn < 2 ^ 20 := by
  unfold dupAddress PGSIZE
  constructor
  · intro h
    have := Nat.mod_lt (pn * 4096) (show 0 < 2 ^ 32 by norm_num)
    omega
  · intro h
    apply Nat.mod_eq_of_lt
    omega

/-- C10: at page number 0x80007fd, a page of the user range (the page below
`USTACKTOP`, address 0x80007fd000), the first call of `duppage` is a
`sys_page_map` with source and destination address 0x7fd000, whatever the
kernel does: the product `pn * PGSIZE` is cut to 32 bits. -/
theorem duppage_address_truncated (S : Sys K) (envid : Int) (k : K) :
    0x80007fd < UTOP / PGSIZE ∧ 0x80007fd * PGSIZE = 0x80007fd000 ∧
    ∃ perm r rest, (duppage (logged S) envid 0x80007fd (k, [])).state.2
      = Call.page_map 0 0x7fd000 envid 0x7fd000 perm r :: rest := by
  refine ⟨by decide, by decide, ?_⟩
  have ha : dupAddress 0x80007fd = 0x7fd000 := by decide
  simp only [duppage, logged, ha]
  split_ifs <;> simp [Res.state]

/-! ## The loop of `fork` -/

/-- C9: when the entry of the top level, of level 3 or of level 2 that covers
`addr` is absent, one pass of the loop moves `addr` forward by
`NPDPENTRIES * NPDENTRIES * PGSIZE`, `NPDENTRIES * NPTENTRIES * PGSIZE` or
`NPTENTRIES * PGSIZE`, and by one more page for the increment of the `for`:
the next address examined is `addr + 0x40001000`, `addr + 0x40001000` or
`addr + 0x201000`. -/
theorem walkBody_skip (S : Sys K) (child_id : Int) (addr : Nat) (k : K) (hlt : addr < UTOP) :
    ((S.uvpml4e k (VPML4E addr) &&& PTE_P) = 0 →
      walkBody S child_id addr k = Res.ret (addr + 0x40001000) k) ∧
    ((S.uvpml4e k (VPML4E addr) &&& PTE_P) ≠ 0 → (S.uvpde k (VPDPE addr) &&& PTE_P) = 0 →
      walkBody S child_id addr k = Res.ret (addr + 0x40001000) k) ∧
    ((S.uvpml4e k (VPML4E addr) &&& PTE_P) ≠ 0 → (S.uvpde k (VPDPE addr) &&& PTE_P) ≠ 0 →
      (S.uvpd k (VPD addr) &&& PTE_P) = 0 →
      walkBody S child_id addr k = Res.ret (addr + 0x201000) k) := by
  have h1 : (addr + NPDPENTRIES * NPDENTRIES * PGSIZE + PGSIZE) % 2 ^ 64 = addr + 0x40001000 := by
    unfold UTOP at hlt
    unfold NPDPENTRIES NPDENTRIES PGSIZE
    omega
  have h2 : (addr + NPDENTRIES * NPTENTRIES * PGSIZE + PGSIZE) % 2 ^ 64 = addr + 0x40001000 := by
    unfold UTOP at hlt
    unfold NPTENTRIES NPDENTRIES PGSIZE
    omega
  have h3 : (addr + NPTENTRIES * PGSIZE + PGSIZE) % 2 ^ 64 = addr + 0x201000 := by
    unfold UTOP at hlt
    unfold NPTENTRIES PGSIZE
    omega
  refine ⟨?_, ?_, ?_⟩
  · intro a1
    unfold walkBody
    rw [if_pos a1, h1]
  · intro a1 a2
    unfold walkBody
    rw [if_neg a1, if_pos a2, h2]
  · intro a1 a2 a3
    unfold walkBody
    rw [if_neg a1, if_neg a2, if_pos a3, h3]

/-! ## The fault handler -/

/-- C4: `pgfault` panics exactly when the fault is not a write, or the table
entry of the faulting page is not marked copy-on-write, or one of its three
system calls (allocate, map, unmap) returns a negative result; and when the
fault is not a write or the page is not marked copy-on-write it panics with
no call made: nothing is allocated, copied or mapped and the state is the one
it was given. -/
theorem pgfault_panics_iff (S : Sys K) (va err : Nat) (k : K) :
    let bad := (err &&& FEC_WR) = 0 ∨ ((S.uvpt k (VPN va) &&& PTE_SYSCALL) &&& PTE_COW) = 0
    let a := S.sys_page_alloc k 0 PFTEMP (PTE_P ||| PTE_W ||| PTE_U)
    let m := S.sys_page_map (S.memmove a.2 PFTEMP (ROUNDDOWN va PGSIZE) PGSIZE) 0 PFTEMP 0
      (ROUNDDOWN va PGSIZE) (PTE_P ||| PTE_W ||| PTE_U)
    let u := S.sys_page_unmap m.2 0 PFTEMP
    ((pgfault S va err k).isPanic = true ↔ bad ∨ a.1 < 0 ∨ m.1 < 0 ∨ u.1 < 0) ∧
    (bad → pgfault (logged S) va err (k, [])
      = Res.panic "Inappropriate permissions!" (k, [])) := by
  intro bad a m u
  constructor
  · by_cases hb : bad
    · have : pgfault S va err k = Res.panic "Inappropriate permissions!" k := by
        unfold pgfault
        exact if_pos hb
      simp [this, Res.isPanic, hb]
    · have e0 : pgfault S va err k =
          if a.1 < 0 then Res.panic "Page alloc failed!" a.2
          else if m.1 < 0 then Res.panic "Mapping page to PFTEMP failed in pgfault!" m.2
          else if u.1 < 0 then Res.panic "PFTEMP unmap failed!" u.2
          else Res.ret () u.2 := by
        unfold pgfault
        exact if_neg hb
      rw [e0]
      by_cases h1 : a.1 < 0
      · simp [h1, Res.isPanic]
      · by_cases h2 : m.1 < 0
        · simp [h1, h2, Res.isPanic]
        · by_cases h3 : u.1 < 0
          · simp [h1, h2, h3, Res.isPanic]
          · simp [h1, h2, h3, Res.isPanic, hb]
  · intro hb
    unfold pgfault
    exact if_pos hb

/-! ## Runs of `fork` and `pgfault` on example states -/

/-- Witness of C9: in `Kern.parentA` the entry of level 2 covering 0xa00000
is absent; the next address examined is 0xc01000, while the region of the
next entry of that level starts at 0xc00000. -/
theorem walkBody_skip_witness :
    walkBody Kern.sys 0x1001 0xa00000 Kern.parentA = Res.ret (0xa00000 + 0x201000) Kern.parentA ∧
    (VPD 0xa00000 + 1) * (NPTENTRIES * PGSIZE) = 0xc00000 ∧
    Kern.parentA.pte 0x1000 (PGNUM 0xc00000) = some ⟨12, 7⟩ :=
  ⟨(walkBody_skip Kern.sys 0x1001 0xa00000 Kern.parentA (by decide)).2.2
      (by decide) (by decide) (by decide), by decide, by decide⟩

set_option maxRecDepth 100000 in
/-- C1: in `Kern.parentA` the page at 0xc00000 lies in `[UTEXT, UTOP)`, is not
the exception-stack page, is present at all four levels and writable; `fork`
returns the child id 0x1001, and afterwards the child has no mapping at
0xc00000 and the mapping of the parent is unchanged, writable and not marked
copy-on-write. -/
theorem fork_passes_over_present_page :
    (UTEXT ≤ 0xc00000 ∧ 0xc00000 < UTOP ∧ 0xc00000 ≠ UXSTACKTOP - PGSIZE) ∧
    (Kern.sys.uvpml4e Kern.parentA (VPML4E 0xc00000) &&& PTE_P ≠ 0 ∧
     Kern.sys.uvpde Kern.parentA (VPDPE 0xc00000) &&& PTE_P ≠ 0 ∧
     Kern.sys.uvpd Kern.parentA (VPD 0xc00000) &&& PTE_P ≠ 0 ∧
     Kern.sys.uvpt Kern.parentA (PGNUM 0xc00000) &&& PTE_P ≠ 0 ∧
     Kern.sys.uvpt Kern.parentA (PGNUM 0xc00000) &&& PTE_W ≠ 0) ∧
    ((fork Kern.sys Kern.parentA).bind Res.returned).map
      (fun r => (r.1, r.2.pte 0x1001 (PGNUM 0xc00000), r.2.pte 0x1000 (PGNUM 0xc00000)))
    = some (0x1001, none, some ⟨12, 7⟩) := by
  decide!

set_option maxRecDepth 100000 in
/-- C6: in `Kern.parentA` the exception-stack page of the parent is frame 13,
whose first byte is 0xAB; `fork` returns the child id 0x1001, and afterwards
the exception-stack page of the child is the fresh frame 21, whose first byte
is 0, while the first byte of the page of the parent is still 0xAB. -/
theorem fork_child_exception_stack_is_fresh :
    Kern.parentA.pte 0x1000 (PGNUM (UXSTACKTOP - PGSIZE)) = some ⟨13, 7⟩ ∧
    Kern.parentA.mem 13 0 = 0xAB ∧
    ((fork Kern.sys Kern.parentA).bind Res.returned).map
      (fun r => (r.1,
        (r.2.pte 0x1001 (PGNUM (UXSTACKTOP - PGSIZE))).map (fun m => (m, r.2.mem m.frame 0)),
        (r.2.pte 0x1000 (PGNUM (UXSTACKTOP - PGSIZE))).map (fun m => (m, r.2.mem m.frame 0))))
    = some (0x1001, some (⟨21, 7⟩, 0), some (⟨13, 7⟩, 0xAB)) := by
  decide!

set_option maxRecDepth 100000 in
/-- C7: in `Kern.parentB` the page at 0x1001fe000 is present and read-only;
the `sys_page_map` that `duppage` issues for it fails (result -3) and
`duppage` returns -1, yet `fork` goes on, returns the child id 0x1001 and
leaves the child runnable. -/
theorem fork_ignores_duppage_failure :
    Kern.parentB.pte 0x1000 0x1001fe = some ⟨12, 5⟩ ∧
    ((duppage (logged Kern.sys) 0x1001 0x1001fe ((Kern.sys_exofork Kern.parentB).2, [])).returned).map
      (fun r => (r.1, r.2.2))
      = some (-1, [Call.page_map 0 0x1fe000 0x1001 0x1fe000 5 (-3)]) ∧
    ((fork (logged Kern.sys) (Kern.parentB, [])).bind Res.returned).map
      (fun r => (r.1, r.2.1.status 0x1001,
        decide (Call.page_map 0 0x1fe000 0x1001 0x1fe000 5 (-3) ∈ r.2.2)))
      = some (0x1001, ENV_RUNNABLE, true) := by
  decide!

set_option maxRecDepth 100000 in
/-- C8: the calls of `fork` on `Kern.parentB`, in order: the `sys_page_map`
of the walk for the page at 0x1001fe000 fails (result -3), and
`sys_env_set_status(child, ENV_RUNNABLE)` is issued all the same, as the
last call. -/
theorem fork_runnable_after_failed_step :
    ((fork (logged Kern.sys) (Kern.parentB, [])).bind Res.returned).map (fun r => (r.1, r.2.2))
    = some (0x1001,
      [Call.exofork 0x1001,
       Call.page_map 0 0x800000 0x1001 0x800000 5 0,
       Call.page_map 0 0x801000 0x1001 0x801000 0x805 0,
       Call.page_map 0 0x801000 0 0x801000 0x805 0,
       Call.page_map 0 0x1fe000 0x1001 0x1fe000 5 (-3),
       Call.page_alloc 0x1000 PFTEMP 7 0,
       Call.memmove PFTEMP (UXSTACKTOP - PGSIZE) PGSIZE,
       Call.page_map 0x1000 PFTEMP 0x1001 (UXSTACKTOP - PGSIZE) 7 0,
       Call.page_unmap 0x1000 PFTEMP 0,
       Call.page_alloc 0x1001 (UXSTACKTOP - PGSIZE) 7 0,
       Call.set_pgfault_upcall 0x1001 0,
       Call.set_status 0x1001 ENV_RUNNABLE 0]) := by
  decide!

/-- Counterexample to C4: in `Kern.stateD` the fault at 0x801234 is a write
and the page is marked copy-on-write, and `pgfault` panics all the same: no
frame is free and `sys_page_alloc` fails. -/
theorem pgfault_panics_on_cow_write :
    (2 &&& FEC_WR ≠ 0 ∧
      (Kern.sys.uvpt Kern.stateD (VPN 0x801234) &&& PTE_SYSCALL) &&& PTE_COW ≠ 0) ∧
    (pgfault Kern.sys 0x801234 2 Kern.stateD).isPanic = true := by
  decide

/-- Counterexample to C5: in `Kern.stateE` the write fault at `PFTEMP + 0x10`
is on a page marked copy-on-write; the three system calls succeed and
`pgfault` returns, and the faulting page is then not mapped: the requirements
"mapped writable" and "`PFTEMP` unmapped" exclude each other there. -/
theorem pgfault_on_PFTEMP_unmaps :
    (2 &&& FEC_WR ≠ 0 ∧
      (Kern.sys.uvpt Kern.stateE (VPN (PFTEMP + 0x10)) &&& PTE_SYSCALL) &&& PTE_COW ≠ 0) ∧
    ((pgfault (logged Kern.sys) (PFTEMP + 0x10) 2 (Kern.stateE, [])).returned).map
      (fun r => (r.2.2, r.2.1.pte 0x1000 (VPN (PFTEMP + 0x10))))
    = some ([Call.page_alloc 0 PFTEMP 7 0, Call.memmove PFTEMP PFTEMP PGSIZE,
        Call.page_map 0 PFTEMP 0 PFTEMP 7 0, Call.page_unmap 0 PFTEMP 0], none) := by
  decide

/-! ## The modelled system calls -/

namespace Kern

theorem envid2env_zero (k : Kern) (e : Int) (h : envid2env k 0 = some e) : e = k.cur := by
  unfold envid2env at h
  simp only [if_true] at h
  split_ifs at h
  exact (Option.some.inj h).symm

theorem sys_page_map_cases (k : Kern) (s : Int) (sva : Nat) (d : Int) (dva perm : Nat) :
    ((sys_page_map k s sva d dva perm).1 < 0 ∧ (sys_page_map k s sva d dva perm).2 = k) ∨
    ∃ se de m, envid2env k s = some se ∧ envid2env k d = some de ∧ validVa sva ∧ validVa dva ∧
      k.pte se (PGNUM sva) = some m ∧ validPerm perm ∧
      ¬ ((perm &&& PTE_W) ≠ 0 ∧ (m.perm &&& PTE_W) = 0) ∧
      sys_page_map k s sva d dva perm = (0, insert k de dva ⟨m.frame, perm⟩) := by
  unfold sys_page_map
  cases hs : envid2env k s with
  | none => left; simp [E_BAD_ENV]
  | some se =>
    cases hd : envid2env k d with
    | none => left; simp [E_BAD_ENV]
    | some de =>
      simp only []
      by_cases hv : ¬ validVa sva ∨ ¬ validVa dva
      · left; rw [if_pos hv]; simp [E_INVAL]
      · rw [if_neg hv]
        push_neg at hv
        cases hm : k.pte se (PGNUM sva) with
        | none => left; simp [E_INVAL]
        | some m =>
          simp only []
          by_cases hp : ¬ validPerm perm
          · left; rw [if_pos hp]; simp [E_INVAL]
          · rw [if_neg hp]
            by_cases hw : (perm &&& PTE_W) ≠ 0 ∧ (m.perm &&& PTE_W) = 0
            · left; rw [if_pos hw]; simp [E_INVAL]
            · right
              rw [if_neg hw]
              exact ⟨se, de, m, rfl, rfl, hv.1, hv.2, hm, not_not.mp hp, hw, rfl⟩

theorem sys_page_alloc_cases (k : Kern) (envid : Int) (va perm : Nat) :
    ((sys_page_alloc k envid va perm).1 < 0 ∧ (sys_page_alloc k envid va perm).2 = k) ∨
    ∃ e f rest, envid2env k envid = some e ∧ validVa va ∧ validPerm perm ∧ k.free = f :: rest ∧
      sys_page_alloc k envid va perm = (0, insert
        { k with free := rest, mem := fun g off => if g = f then 0 else k.mem g off }
        e va ⟨f, perm⟩) := by
  unfold sys_page_alloc
  cases he : envid2env k envid with
  | none => left; simp [E_BAD_ENV]
  | some e =>
    simp only []
    by_cases hv : ¬ validVa va ∨ ¬ validPerm perm
    · left; rw [if_pos hv]; simp [E_INVAL]
    · rw [if_neg hv]
      push_neg at hv
      cases hf : k.free with
      | nil => left; simp [E_NO_MEM]
      | cons f rest =>
        right
        exact ⟨e, f, rest, rfl, hv.1, hv.2, rfl, rfl⟩

theorem sys_page_unmap_cases (k : Kern) (envid : Int) (va : Nat) :
    ((sys_page_unmap k envid va).1 < 0 ∧ (sys_page_unmap k envid va).2 = k) ∨
    ∃ e m, envid2env k envid = some e ∧ validVa va ∧ k.pte e (PGNUM va) = some m ∧
      sys_page_unmap k envid va = (0, { k with
        pte := fun e1 pn => if e1 = e ∧ pn = PGNUM va then none else k.pte e1 pn }) := by
  unfold sys_page_unmap
  cases he : envid2env k envid with
  | none => left; simp [E_BAD_ENV]
  | some e =>
    simp only []
    by_cases hv : ¬ validVa va
    · left; rw [if_pos hv]; simp [E_INVAL]
    · rw [if_neg hv]
      cases hm : k.pte e (PGNUM va) with
      | none => left; simp [E_INVAL]
      | some m =>
        right
        exact ⟨e, m, rfl, not_not.mp hv, hm, rfl⟩

end Kern

/-! ## Sharing during `duppage` -/

namespace Kern

end Kern

theorem pgfault_of_good (S : Sys K) (va err : Nat) (k : K)
    (hb : ¬ ((err &&& FEC_WR) = 0 ∨ ((S.uvpt k (VPN va) &&& PTE_SYSCALL) &&& PTE_COW) = 0)) :
    pgfault S va err k =
      if (S.sys_page_alloc k 0 PFTEMP (PTE_P ||| PTE_W ||| PTE_U)).1 < 0 then
        Res.panic "Page alloc failed!" (S.sys_page_alloc k 0 PFTEMP (PTE_P ||| PTE_W ||| PTE_U)).2
      else if (S.sys_page_map (S.memmove (S.sys_page_alloc k 0 PFTEMP (PTE_P ||| PTE_W ||| PTE_U)).2
          PFTEMP (ROUNDDOWN va PGSIZE) PGSIZE) 0 PFTEMP 0 (ROUNDDOWN va PGSIZE)
          (PTE_P ||| PTE_W ||| PTE_U)).1 < 0 then
        Res.panic "Mapping page to PFTEMP failed in pgfault!"
          (S.sys_page_map (S.memmove (S.sys_page_alloc k 0 PFTEMP (PTE_P ||| PTE_W ||| PTE_U)).2
          PFTEMP (ROUNDDOWN va PGSIZE) PGSIZE) 0 PFTEMP 0 (ROUNDDOWN va PGSIZE)
          (PTE_P ||| PTE_W ||| PTE_U)).2
      else if (S.sys_page_unmap (S.sys_page_map (S.memmove
          (S.sys_page_alloc k 0 PFTEMP (PTE_P ||| PTE_W ||| PTE_U)).2
          PFTEMP (ROUNDDOWN va PGSIZE) PGSIZE) 0 PFTEMP 0 (ROUNDDOWN va PGSIZE)
          (PTE_P ||| PTE_W ||| PTE_U)).2 0 PFTEMP).1 < 0 then
        Res.panic "PFTEMP unmap failed!" (S.sys_page_unmap (S.sys_page_map (S.memmove
          (S.sys_page_alloc k 0 PFTEMP (PTE_P ||| PTE_W ||| PTE_U)).2
          PFTEMP (ROUNDDOWN va PGSIZE) PGSIZE) 0 PFTEMP 0 (ROUNDDOWN va PGSIZE)
          (PTE_P ||| PTE_W ||| PTE_U)).2 0 PFTEMP).2
      else Res.ret () (S.sys_page_unmap (S.sys_page_map (S.memmove
          (S.sys_page_alloc k 0 PFTEMP (PTE_P ||| PTE_W ||| PTE_U)).2
          PFTEMP (ROUNDDOWN va PGSIZE) PGSIZE) 0 PFTEMP 0 (ROUNDDOWN va PGSIZE)
          (PTE_P ||| PTE_W ||| PTE_U)).2 0 PFTEMP).2 := by
  unfold pgfault
  exact if_neg hb

theorem PGNUM_ROUNDDOWN (va : Nat) : PGNUM (ROUNDDOWN va PGSIZE) = VPN va := by
  unfold PGNUM VPN ROUNDDOWN PGSIZE
  rw [Nat.shiftRight_eq_div_pow, Nat.shiftRight_eq_div_pow]
  omega

theorem ROUNDDOWN_mod (va : Nat) : ROUNDDOWN va PGSIZE % PGSIZE = 0 := by
  unfold ROUNDDOWN PGSIZE
  omega

theorem VPN_ne_of_ROUNDDOWN_ne (va : Nat) (h : ROUNDDOWN va PGSIZE ≠ PFTEMP) :
    VPN va ≠ PGNUM PFTEMP := by
  unfold ROUNDDOWN PGSIZE PFTEMP at h
  unfold VPN PGNUM PFTEMP
  rw [Nat.shiftRight_eq_div_pow, Nat.shiftRight_eq_div_pow]
  omega

theorem Kern.memmove_mapped (k : Kern) (dst src n : Nat) (d s : Mapping)
    (hd : k.pte k.cur (PGNUM dst) = some d) (hs : k.pte k.cur (PGNUM src) = some s) :
    Kern.memmove k dst src n =
    { k with mem := fun f off =>
        if f = d.frame ∧ dst % PGSIZE ≤ off ∧ off < dst % PGSIZE + n
        then k.mem s.frame (off - dst % PGSIZE + src % PGSIZE) else k.mem f off } := by
  unfold Kern.memmove
  rw [hd, hs]

namespace Kern

theorem sys_page_alloc_self_ok (k : Kern) (va perm : Nat)
    (h : ¬ (sys_page_alloc k 0 va perm).1 < 0) :
    ∃ f rest, k.free = f :: rest ∧
      (sys_page_alloc k 0 va perm).2.cur = k.cur ∧
      (∀ e pn, (sys_page_alloc k 0 va perm).2.pte e pn =
        if e = k.cur ∧ pn = PGNUM va then some ⟨f, perm⟩ else k.pte e pn) ∧
      (∀ g off, (sys_page_alloc k 0 va perm).2.mem g off = if g = f then 0 else k.mem g off) := by
  rcases sys_page_alloc_cases k 0 va perm with ⟨hneg, -⟩ | ⟨e, f, rest, he, -, -, hf, heq⟩
  · exact absurd hneg h
  · have hec := envid2env_zero k e he
    subst hec
    rw [heq]
    exact ⟨f, rest, hf, rfl, fun _ _ => rfl, fun _ _ => rfl⟩

theorem memmove_obs (k : Kern) (dst src n : Nat) (d s : Mapping)
    (hd : k.pte k.cur (PGNUM dst) = some d) (hs : k.pte k.cur (PGNUM src) = some s) :
    (memmove k dst src n).cur = k.cur ∧
    (∀ e pn, (memmove k dst src n).pte e pn = k.pte e pn) ∧
    (∀ g off, (memmove k dst src n).mem g off =
      if g = d.frame ∧ dst % PGSIZE ≤ off ∧ off < dst % PGSIZE + n
      then k.mem s.frame (off - dst % PGSIZE + src % PGSIZE) else k.mem g off) := by
  rw [memmove_mapped k dst src n d s hd hs]
  exact ⟨rfl, fun _ _ => rfl, fun _ _ => rfl⟩

theorem sys_page_map_self_ok (k : Kern) (sva dva perm : Nat)
    (h : ¬ (sys_page_map k 0 sva 0 dva perm).1 < 0) :
    ∃ m, k.pte k.cur (PGNUM sva) = some m ∧
      (sys_page_map k 0 sva 0 dva perm).2.cur = k.cur ∧
      (∀ e pn, (sys_page_map k 0 sva 0 dva perm).2.pte e pn =
        if e = k.cur ∧ pn = PGNUM dva then some ⟨m.frame, perm⟩ else k.pte e pn) ∧
      (∀ g off, (sys_page_map k 0 sva 0 dva perm).2.mem g off = k.mem g off) := by
  rcases sys_page_map_cases k 0 sva 0 dva perm with
    ⟨hneg, -⟩ | ⟨se, de, m, hse, hde, -, -, hm, -, -, heq⟩
  · exact absurd hneg h
  · have h1 := envid2env_zero k se hse
    have h2 := envid2env_zero k de hde
    subst h1
    subst h2
    rw [heq]
    exact ⟨m, hm, rfl, fun _ _ => rfl, fun _ _ => rfl⟩

theorem sys_page_unmap_self_ok (k : Kern) (va : Nat)
    (h : ¬ (sys_page_unmap k 0 va).1 < 0) :
    (sys_page_unmap k 0 va).2.cur = k.cur ∧
    (∀ e pn, (sys_page_unmap k 0 va).2.pte e pn =
      if e = k.cur ∧ pn = PGNUM va then none else k.pte e pn) ∧
    (∀ g off, (sys_page_unmap k 0 va).2.mem g off = k.mem g off) := by
  rcases sys_page_unmap_cases k 0 va with ⟨hneg, -⟩ | ⟨e, m, he, -, -, heq⟩
  · exact absurd hneg h
  · have h1 := envid2env_zero k e he
    subst h1
    rw [heq]
    exact ⟨rfl, fun _ _ => rfl, fun _ _ => rfl⟩

end Kern

/-- C5: for a write fault at `va` on a page marked copy-on-write that is not
the scratch page `PFTEMP`, in a state where no free frame is mapped, when
`pgfault` returns (its three system calls succeed): the faulting page is
mapped present, writable and user (not copy-on-write) to the frame `f` taken
from the free frames, which no mapping referenced before; the 4096 bytes of
`f` are those of the page before the fault; `PFTEMP` is unmapped; every other
mapping, of every environment, is unchanged, and so is the content of every
other frame, the original one included. -/
theorem pgfault_private_copy (k : Kern) (va err : Nat)
    (hfree : Kern.freeUnmapped k)
    (hw : (err &&& FEC_WR) ≠ 0)
    (hcow : ((Kern.sys.uvpt k (VPN va) &&& PTE_SYSCALL) &&& PTE_COW) ≠ 0)
    (hne : ROUNDDOWN va PGSIZE ≠ PFTEMP)
    (hok : (pgfault Kern.sys va err k).isPanic = false) :
    ∃ (m0 : Mapping) (f : Nat),
      k.pte k.cur (VPN va) = some m0 ∧ k.free.head? = some f ∧
      (∀ e pn m, k.pte e pn = some m → m.frame ≠ f) ∧
      (pgfault Kern.sys va err k).state.pte k.cur (VPN va)
        = some ⟨f, PTE_P ||| PTE_W ||| PTE_U⟩ ∧
      (PTE_P ||| PTE_W ||| PTE_U) &&& PTE_COW = 0 ∧
      (∀ off, off < PGSIZE →
        (pgfault Kern.sys va err k).state.mem f off = k.mem m0.frame off) ∧
      (pgfault Kern.sys va err k).state.pte k.cur (PGNUM PFTEMP) = none ∧
      (∀ e pn, ¬ (e = k.cur ∧ (pn = VPN va ∨ pn = PGNUM PFTEMP)) →
        (pgfault Kern.sys va err k).state.pte e pn = k.pte e pn) ∧
      (∀ g off, g ≠ f → (pgfault Kern.sys va err k).state.mem g off = k.mem g off) := by
  have hb : ¬ ((err &&& FEC_WR) = 0 ∨
      ((Kern.sys.uvpt k (VPN va) &&& PTE_SYSCALL) &&& PTE_COW) = 0) := by
    push_neg; exact ⟨hw, hcow⟩
  have hpn := VPN_ne_of_ROUNDDOWN_ne va hne
  -- the faulting page is mapped
  obtain ⟨m0, hm0⟩ : ∃ m0, k.pte k.cur (VPN va) = some m0 := by
    cases h : k.pte k.cur (VPN va) with
    | none =>
      exfalso
      apply hcow
      show (Kern.pteEntry (k.pte k.cur (VPN va)) &&& PTE_SYSCALL) &&& PTE_COW = 0
      rw [h]
      decide
    | some m => exact ⟨m, rfl⟩
  have e1 : Kern.sys.sys_page_alloc = Kern.sys_page_alloc := rfl
  have e2 : Kern.sys.sys_page_map = Kern.sys_page_map := rfl
  have e3 : Kern.sys.sys_page_unmap = Kern.sys_page_unmap := rfl
  have e4 : Kern.sys.memmove = Kern.memmove := rfl
  rw [pgfault_of_good Kern.sys va err k hb, e1, e2, e3, e4] at hok ⊢
  generalize hA : Kern.sys_page_alloc k 0 PFTEMP (PTE_P ||| PTE_W ||| PTE_U) = A at hok ⊢
  by_cases ha : A.1 < 0
  · rw [if_pos ha] at hok
    exact absurd hok (by simp [Res.isPanic])
  rw [if_neg ha] at hok ⊢
  obtain ⟨f, rest, hf, hAcur, hApte, hAmem⟩ :=
    Kern.sys_page_alloc_self_ok k PFTEMP (PTE_P ||| PTE_W ||| PTE_U) (by rw [hA]; exact ha)
  rw [hA] at hAcur hApte hAmem
  have hfresh : ∀ e pn m, k.pte e pn = some m → m.frame ≠ f := by
    intro e pn m h hfr
    apply hfree e pn m h
    rw [hf, hfr]
    exact List.mem_cons_self _ _
  -- the copy
  have hd : A.2.pte A.2.cur (PGNUM PFTEMP) = some ⟨f, PTE_P ||| PTE_W ||| PTE_U⟩ := by
    rw [hApte, hAcur]; simp
  have hs : A.2.pte A.2.cur (PGNUM (ROUNDDOWN va PGSIZE)) = some m0 := by
    rw [hApte, hAcur, PGNUM_ROUNDDOWN, if_neg (fun h => hpn h.2)]
    exact hm0
  obtain ⟨hCcur, hCpte, hCmem⟩ :=
    Kern.memmove_obs A.2 PFTEMP (ROUNDDOWN va PGSIZE) PGSIZE _ _ hd hs
  generalize Kern.memmove A.2 PFTEMP (ROUNDDOWN va PGSIZE) PGSIZE = C at hok hCcur hCpte hCmem ⊢
  -- the mapping
  generalize hM : Kern.sys_page_map C 0 PFTEMP 0 (ROUNDDOWN va PGSIZE)
    (PTE_P ||| PTE_W ||| PTE_U) = M at hok ⊢
  by_cases hm : M.1 < 0
  · rw [if_pos hm] at hok
    exact absurd hok (by simp [Res.isPanic])
  rw [if_neg hm] at hok ⊢
  obtain ⟨m, hmC, hMcur, hMpte, hMmem⟩ := Kern.sys_page_map_self_ok C PFTEMP
    (ROUNDDOWN va PGSIZE) (PTE_P ||| PTE_W ||| PTE_U) (by rw [hM]; exact hm)
  rw [hM] at hMcur hMpte hMmem
  have hmf : m = ⟨f, PTE_P ||| PTE_W ||| PTE_U⟩ := by
    rw [hCpte, hCcur, hd] at hmC
    exact (Option.some.inj hmC).symm
  subst hmf
  -- the unmapping
  generalize hU : Kern.sys_page_unmap M.2 0 PFTEMP = U at hok ⊢
  by_cases hu : U.1 < 0
  · rw [if_pos hu] at hok
    exact absurd hok (by simp [Res.isPanic])
  rw [if_neg hu]
  obtain ⟨hUcur, hUpte, hUmem⟩ := Kern.sys_page_unmap_self_ok M.2 PFTEMP (by rw [hU]; exact hu)
  rw [hU] at hUcur hUpte hUmem
  simp only [Res.state]
  have hcurM : M.2.cur = k.cur := by rw [hMcur, hCcur, hAcur]
  refine ⟨m0, f, hm0, by rw [hf]; rfl, hfresh, ?_, by decide, ?_, ?_, ?_, ?_⟩
  · rw [hUpte, hcurM, if_neg (fun h => hpn h.2), hMpte, hCcur, hAcur, PGNUM_ROUNDDOWN]
    simp
  · intro off hoff
    rw [hUmem, hMmem, hCmem]
    have h0 : PFTEMP % PGSIZE = 0 := by decide
    rw [h0, ROUNDDOWN_mod, if_pos ⟨rfl, Nat.zero_le _, by omega⟩, hAmem,
      if_neg (hfresh _ _ _ hm0)]
    simp
  · rw [hUpte, hcurM]; simp
  · intro e pn hn
    have h1 : ¬ (e = k.cur ∧ pn = PGNUM PFTEMP) := fun h => hn ⟨h.1, Or.inr h.2⟩
    have h2 : ¬ (e = k.cur ∧ pn = VPN va) := fun h => hn ⟨h.1, Or.inl h.2⟩
    rw [hUpte, hcurM, if_neg h1, hMpte, hCcur, hAcur, PGNUM_ROUNDDOWN, if_neg h2, hCpte, hApte,
      if_neg h1]
  · intro g off hg
    rw [hUmem, hMmem, hCmem, if_neg (fun h => hg h.1), hAmem, if_neg hg]

theorem Kern.stateF_pte (e : Int) (pn : Nat) (m : Mapping) (h : Kern.stateF.pte e pn = some m) :
    m.frame = 11 := by
  simp only [Kern.stateF, Kern.sample] at h
  split_ifs at h with h1 h2
  · by_cases hpn : (pn == 0x801) = true
    · simp [List.lookup, hpn] at h
      rw [← h]
    · simp [List.lookup, hpn] at h
  · by_cases hpn : (pn == 0x801) = true
    · simp [List.lookup, hpn] at h
      rw [← h]
    · simp [List.lookup, hpn] at h

theorem Kern.stateF_freeUnmapped : Kern.freeUnmapped Kern.stateF := by
  intro e pn m h
  rw [Kern.stateF_pte e pn m h]
  decide

/-- Witness of C5 as amended: the write fault at 0x801234 in `Kern.stateF`. -/
theorem pgfault_private_copy_witness :
    Kern.freeUnmapped Kern.stateF ∧
    (pgfault Kern.sys 0x801234 7 Kern.stateF).isPanic = false ∧
    ∃ (m0 : Mapping) (f : Nat),
      Kern.stateF.pte Kern.stateF.cur (VPN 0x801234) = some m0 ∧
      Kern.stateF.free.head? = some f ∧
      (∀ e pn m, Kern.stateF.pte e pn = some m → m.frame ≠ f) ∧
      (pgfault Kern.sys 0x801234 7 Kern.stateF).state.pte Kern.stateF.cur (VPN 0x801234)
        = some ⟨f, PTE_P ||| PTE_W ||| PTE_U⟩ ∧
      (PTE_P ||| PTE_W ||| PTE_U) &&& PTE_COW = 0 ∧
      (∀ off, off < PGSIZE →
        (pgfault Kern.sys 0x801234 7 Kern.stateF).state.mem f off = Kern.stateF.mem m0.frame off) ∧
      (pgfault Kern.sys 0x801234 7 Kern.stateF).state.pte Kern.stateF.cur (PGNUM PFTEMP) = none ∧
      (∀ e pn, ¬ (e = Kern.stateF.cur ∧ (pn = VPN 0x801234 ∨ pn = PGNUM PFTEMP)) →
        (pgfault Kern.sys 0x801234 7 Kern.stateF).state.pte e pn = Kern.stateF.pte e pn) ∧
      (∀ g off, g ≠ f →
        (pgfault Kern.sys 0x801234 7 Kern.stateF).state.mem g off = Kern.stateF.mem g off) :=
  ⟨Kern.stateF_freeUnmapped, by decide,
    pgfault_private_copy Kern.stateF 0x801234 7 Kern.stateF_freeUnmapped
      (by decide) (by decide) (by decide) (by decide)⟩

/-! ## The loop of `fork` ends -/

theorem walkBody_next (S : Sys K) (child_id : Int) (addr : Nat) (k : K) (hlt : addr < UTOP)
    (next : Nat) (k1 : K) (h : walkBody S child_id addr k = Res.ret next k1) :
    addr + PGSIZE ≤ next := by
  unfold UTOP at hlt
  unfold walkBody at h
  unfold NPDPENTRIES NPDENTRIES NPTENTRIES PGSIZE at h
  unfold PGSIZE
  split_ifs at h
  · injection h with h1 h2; omega
  · injection h with h1 h2; omega
  · injection h with h1 h2; omega
  · split at h
    · injection h with h1 h2; omega
    · exact absurd h (by simp)
  · injection h with h1 h2; omega

theorem walk_ends (S : Sys K) (child_id : Int) :
    ∀ (fuel addr : Nat) (k : K), UTOP ≤ addr + fuel * PGSIZE →
      walk S child_id fuel addr k ≠ none := by
  intro fuel
  induction fuel with
  | zero =>
    intro addr k h
    unfold walk
    rw [if_neg (by omega)]
    simp
  | succ n ih =>
    intro addr k h
    unfold walk
    by_cases hlt : addr < UTOP
    · rw [if_pos hlt]
      simp only []
      cases hb : walkBody S child_id addr k with
      | panic msg k1 => simp
      | ret next k1 =>
        simp only []
        apply ih
        have hn := walkBody_next S child_id addr k hlt next k1 hb
        have : addr + (n + 1) * PGSIZE = addr + PGSIZE + n * PGSIZE := by ring
        omega
    · rw [if_neg hlt]
      simp

/-- The routine `fork` always stops: the fuel `walkFuel` is never used up. -/
theorem fork_ends (S : Sys K) (k : K) : fork S k ≠ none := by
  unfold fork forkFuel
  simp only []
  split_ifs
  · simp
  · simp
  · have := walk_ends S (S.sys_exofork (S.set_pgfault_handler k)).1 walkFuel UTEXT
      (S.sys_exofork (S.set_pgfault_handler k)).2 (by decide)
    cases hw : walk S (S.sys_exofork (S.set_pgfault_handler k)).1 walkFuel UTEXT
        (S.sys_exofork (S.set_pgfault_handler k)).2 with
    | none => exact absurd hw this
    | some r => cases r <;> simp

end Jos
